import Mathlib

/-!
Verification of the "geo" metadata conformance harness of a columnar
geospatial file format (cdw-geo).

The repository ships a fixture catalog (`tests/test_json_schema.py`) of
valid and invalid metadata documents, an example-metadata generator
(`examples/example.py`), and a JSON-Schema rule set that the harness feeds
to a Draft-7 validator.  The fixture catalog, the export harness and the
example metadata below are translated directly from those source files.
The validation engine itself (the schema file plus the Draft-7 validator
semantics) is not part of the source tree, so it is modelled from the
specification of the rule set: required keys, type constraints, fixed
enumerations, bbox cardinality, geometry-type uniqueness, open schema.
-/

namespace CdwGeo

/-- Document Model: a JSON-like tree of objects (ordered string-keyed
maps), arrays, strings, numbers, booleans and null.  Integer and floating
numbers are treated uniformly by the validator, so one numeric constructor
over `Rat` suffices. -/
inductive Json where
  | obj  : List (String × Json) → Json
  | arr  : List Json → Json
  | str  : String → Json
  | num  : Rat → Json
  | bool : Bool → Json
  | null : Json
deriving Repr

mutual

/-- Structural equality of documents (exact value equality, used by the
uniqueness check on `geometry_types`). -/
def jsonBeq : Json → Json → Bool
  | Json.obj a, Json.obj b => fieldsBeq a b
  | Json.arr a, Json.arr b => elemsBeq a b
  | Json.str a, Json.str b => a == b
  | Json.num a, Json.num b => a == b
  | Json.bool a, Json.bool b => a == b
  | Json.null, Json.null => true
  | _, _ => false

/-- Equality of object field lists. -/
def fieldsBeq : List (String × Json) → List (String × Json) → Bool
  | [], [] => true
  | (k1, v1) :: t1, (k2, v2) :: t2 => k1 == k2 && jsonBeq v1 v2 && fieldsBeq t1 t2
  | _, _ => false

/-- Equality of array element lists. -/
def elemsBeq : List Json → List Json → Bool
  | [], [] => true
  | v1 :: t1, v2 :: t2 => jsonBeq v1 v2 && elemsBeq t1 t2
  | _, _ => false

end

/-- First-match lookup of a key in an object's field list. -/
def lookupKey (k : String) : List (String × Json) → Option Json
  | [] => none
  | (k', v) :: t => if k' == k then some v else lookupKey k t

/-- True exactly on object nodes. -/
def Json.isObj : Json → Bool
  | Json.obj _ => true
  | _ => false

/-- True exactly on numeric nodes. -/
def Json.isNum : Json → Bool
  | Json.num _ => true
  | _ => false

/-- Violation taxonomy: structural (required key missing / root shape),
type, enumeration and cardinality violations. -/
inductive VKind where
  | structural
  | typeV
  | enumV
  | cardinality
deriving DecidableEq, Repr

/-- One reported constraint failure: a dotted/bracketed path, the kind of
constraint that failed, and a short human-readable message. -/
structure Violation where
  path : String
  kind : VKind
  message : String
deriving DecidableEq, Repr

/-- The fixed geometry-type vocabulary: the seven base types and their
three-dimensional variants, written with a space before the `Z`. -/
def geometryTypeVocabulary : List String :=
  ["Point", "LineString", "Polygon", "MultiPoint", "MultiLineString",
   "MultiPolygon", "GeometryCollection",
   "Point Z", "LineString Z", "Polygon Z", "MultiPoint Z",
   "MultiLineString Z", "MultiPolygon Z", "GeometryCollection Z"]

/-- Modelled from the spec: the rule set file `format-specs/schema.json`
and the Draft-7 validator that interprets it are not in the source tree;
this check implements the spec's required-string rule for a top-level key
(`version`).  Absence is a structural violation, a non-string value a type
violation. -/
def checkRequiredString (key : String) (fields : List (String × Json)) : List Violation :=
  match lookupKey key fields with
  | none => [⟨key, VKind.structural, "missing required key"⟩]
  | some (Json.str _) => []
  | some _ => [⟨key, VKind.typeV, "expected a string"⟩]

/-- Modelled from the spec: `primary_column` is a required, non-empty
string. -/
def checkPrimaryColumn (fields : List (String × Json)) : List Violation :=
  match lookupKey "primary_column" fields with
  | none => [⟨"primary_column", VKind.structural, "missing required key"⟩]
  | some (Json.str s) =>
      if s == "" then [⟨"primary_column", VKind.cardinality, "must be non-empty"⟩] else []
  | some _ => [⟨"primary_column", VKind.typeV, "expected a string"⟩]

/-- Modelled from the spec: one element of `geometry_types` must be a
string drawn from the fixed vocabulary, compared by case-sensitive exact
string equality, no normalization. -/
def geometryTypeElemCheck (path : String) (i : Nat) : Json → List Violation
  | Json.str s =>
      if geometryTypeVocabulary.contains s then []
      else [⟨path ++ "[" ++ toString i ++ "]", VKind.enumV, "not in the geometry-type vocabulary"⟩]
  | _ => [⟨path ++ "[" ++ toString i ++ "]", VKind.typeV, "expected a string"⟩]

/-- Element checks for `geometry_types`, in index order. -/
def geometryTypeElemChecks (path : String) (i : Nat) : List Json → List Violation
  | [] => []
  | e :: t => geometryTypeElemCheck path i e ++ geometryTypeElemChecks path (i + 1) t

/-- Index of the first element equal (by exact value equality) to an
earlier element, if any. -/
def firstDupIdx (seen : List Json) (i : Nat) : List Json → Option Nat
  | [] => none
  | e :: t =>
      if seen.any (fun x => jsonBeq x e) then some i
      else firstDupIdx (e :: seen) (i + 1) t

/-- Index of the first non-numeric element, if any. -/
def firstNonNumIdx (i : Nat) : List Json → Option Nat
  | [] => none
  | e :: t => if e.isNum then firstNonNumIdx (i + 1) t else some i

/-- Modelled from the spec: `geometry_types` is a required array of
strings from the fixed vocabulary, with pairwise-distinct elements; the
first duplicate occurrence (by index) is cited. -/
def checkGeometryTypes (path : String) (cfields : List (String × Json)) : List Violation :=
  match lookupKey "geometry_types" cfields with
  | none => [⟨path ++ ".geometry_types", VKind.structural, "missing required key"⟩]
  | some (Json.arr xs) =>
      geometryTypeElemChecks (path ++ ".geometry_types") 0 xs ++
      (match firstDupIdx [] 0 xs with
       | some i =>
          [⟨path ++ ".geometry_types[" ++ toString i ++ "]", VKind.cardinality,
            "duplicate geometry type"⟩]
       | none => [])
  | some _ => [⟨path ++ ".geometry_types", VKind.typeV, "expected an array"⟩]

/-- Modelled from the spec: `encoding` is a required string from the fixed
enumeration (currently exactly WKB). -/
def checkEncoding (path : String) (cfields : List (String × Json)) : List Violation :=
  match lookupKey "encoding" cfields with
  | none => [⟨path ++ ".encoding", VKind.structural, "missing required key"⟩]
  | some (Json.str s) =>
      if s == "WKB" then [] else [⟨path ++ ".encoding", VKind.enumV, "expected WKB"⟩]
  | some _ => [⟨path ++ ".encoding", VKind.typeV, "expected a string"⟩]

/-- Modelled from the spec: `crs` is optional and must be explicit null or
an object; a bare string (or any other scalar/array) is invalid. -/
def checkCrs (path : String) (cfields : List (String × Json)) : List Violation :=
  match lookupKey "crs" cfields with
  | none => []
  | some Json.null => []
  | some (Json.obj _) => []
  | some _ => [⟨path ++ ".crs", VKind.typeV, "expected an object or null"⟩]

/-- Modelled from the spec: `bbox` is an optional array of numbers whose
length is exactly 4 or 6; the length check and the element-type check are
evaluated independently, each contributing its own violation. -/
def checkBbox (path : String) (cfields : List (String × Json)) : List Violation :=
  match lookupKey "bbox" cfields with
  | none => []
  | some (Json.arr xs) =>
      (if xs.length = 4 ∨ xs.length = 6 then []
       else [⟨path ++ ".bbox", VKind.cardinality, "length must be 4 or 6"⟩]) ++
      (match firstNonNumIdx 0 xs with
       | some i =>
          [⟨path ++ ".bbox[" ++ toString i ++ "]", VKind.typeV, "expected a number"⟩]
       | none => [])
  | some _ => [⟨path ++ ".bbox", VKind.typeV, "expected an array"⟩]

/-- Modelled from the spec: `orientation` is an optional string that must
equal counterclockwise. -/
def checkOrientation (path : String) (cfields : List (String × Json)) : List Violation :=
  match lookupKey "orientation" cfields with
  | none => []
  | some (Json.str s) =>
      if s == "counterclockwise" then []
      else [⟨path ++ ".orientation", VKind.enumV, "expected counterclockwise"⟩]
  | some _ => [⟨path ++ ".orientation", VKind.typeV, "expected a string"⟩]

/-- Modelled from the spec: `edges` is an optional string that must be
planar or spherical. -/
def checkEdges (path : String) (cfields : List (String × Json)) : List Violation :=
  match lookupKey "edges" cfields with
  | none => []
  | some (Json.str s) =>
      if s == "planar" || s == "spherical" then []
      else [⟨path ++ ".edges", VKind.enumV, "expected planar or spherical"⟩]
  | some _ => [⟨path ++ ".edges", VKind.typeV, "expected a string"⟩]

/-- Modelled from the spec: `epoch` is optional and must be numeric, not a
numeric-looking string. -/
def checkEpoch (path : String) (cfields : List (String × Json)) : List Violation :=
  match lookupKey "epoch" cfields with
  | none => []
  | some (Json.num _) => []
  | some _ => [⟨path ++ ".epoch", VKind.typeV, "expected a number"⟩]

/-- Modelled from the spec: the full ColumnSpec rule set, evaluated in a
fixed constraint-declaration order; unrecognized keys are ignored. -/
def checkColumn (path : String) (cfields : List (String × Json)) : List Violation :=
  checkEncoding path cfields ++
  checkGeometryTypes path cfields ++
  checkCrs path cfields ++
  checkBbox path cfields ++
  checkOrientation path cfields ++
  checkEdges path cfields ++
  checkEpoch path cfields

/-- Modelled from the spec: one entry of `columns`.  An empty column name
is a violation; an object value gets the full ColumnSpec rule set; a
non-object value yields one invalid-column-object violation and no
field-level checks (cannot descend into a scalar). -/
def columnEntryCheck (name : String) (v : Json) : List Violation :=
  (if name == "" then
    [⟨"columns." ++ name, VKind.cardinality, "column name must be non-empty"⟩]
   else []) ++
  (match v with
   | Json.obj cfields => checkColumn ("columns." ++ name) cfields
   | _ => [⟨"columns." ++ name, VKind.typeV, "column value is not an object"⟩])

/-- Modelled from the spec: the `columns` block is required, must be an
object and non-empty; each entry is then checked in map iteration order. -/
def checkColumnsBlock (fields : List (String × Json)) : List Violation :=
  match lookupKey "columns" fields with
  | none => [⟨"columns", VKind.structural, "missing required key"⟩]
  | some (Json.obj cols) =>
      (if cols.isEmpty then [⟨"columns", VKind.cardinality, "must be non-empty"⟩] else []) ++
      cols.flatMap (fun p => columnEntryCheck p.1 p.2)
  | some _ => [⟨"columns", VKind.typeV, "expected an object"⟩]

/-- Modelled from the spec: the validation engine.  A non-object root
yields a single top-level structural violation; otherwise document-level
checks run first, then column-level checks in column map order.  The
engine accumulates every violation and never short-circuits. -/
def validate : Json → List Violation
  | Json.obj fields =>
      checkRequiredString "version" fields ++
      checkPrimaryColumn fields ++
      checkColumnsBlock fields
  | _ => [⟨"$", VKind.structural, "root is not an object"⟩]

/-- Replace the value of an existing key in place, or append a fresh key
at the end (Python dict assignment semantics). -/
def setKey (k : String) (v : Json) (fields : List (String × Json)) : List (String × Json) :=
  if fields.any (fun p => p.1 == k)
  then fields.map (fun p => if p.1 == k then (k, v) else p)
  else fields ++ [(k, v)]

/-- Remove a key from a field list (Python dict pop semantics). -/
def removeKey (k : String) (fields : List (String × Json)) : List (String × Json) :=
  fields.filter (fun p => p.1 != k)

/-- Set a top-level key of an object document. -/
def Json.setField (j : Json) (k : String) (v : Json) : Json :=
  match j with
  | Json.obj fields => Json.obj (setKey k v fields)
  | other => other

/-- Remove a top-level key of an object document. -/
def Json.popField (j : Json) (k : String) : Json :=
  match j with
  | Json.obj fields => Json.obj (removeKey k fields)
  | other => other

/-- The minimal ColumnSpec used by the fixture template. -/
def template_geometry_column : Json :=
  Json.obj [("encoding", Json.str "WKB"), ("geometry_types", Json.arr [])]

/-- Field list of `metadata_template`. -/
def metadata_template_fields : List (String × Json) :=
  [("version", Json.str "0.5.0-dev"),
   ("primary_column", Json.str "geometry"),
   ("columns", Json.obj [("geometry", template_geometry_column)])]

/-- `metadata_template` of the conformance harness: the minimal valid
metadata document. -/
def metadata_template : Json :=
  Json.obj metadata_template_fields

/-- Set one field of the `geometry` column of the template-shaped
document (the harness mutates the template this way). -/
def setGeometryField (k : String) (v : Json) (doc : Json) : Json :=
  match doc with
  | Json.obj fields =>
      Json.obj (setKey "columns"
        (match lookupKey "columns" fields with
         | some (Json.obj cols) =>
            Json.obj (setKey "geometry"
              (match lookupKey "geometry" cols with
               | some (Json.obj cfields) => Json.obj (setKey k v cfields)
               | some other => other
               | none => Json.null) cols)
         | some other => other
         | none => Json.null) fields)
  | other => other

/-- Remove one field of the `geometry` column of the template-shaped
document. -/
def popGeometryField (k : String) (doc : Json) : Json :=
  match doc with
  | Json.obj fields =>
      Json.obj (setKey "columns"
        (match lookupKey "columns" fields with
         | some (Json.obj cols) =>
            Json.obj (setKey "geometry"
              (match lookupKey "geometry" cols with
               | some (Json.obj cfields) => Json.obj (removeKey k cfields)
               | some other => other
               | none => Json.null) cols)
         | some other => other
         | none => Json.null) fields)
  | other => other

/-- `valid_cases` of the conformance harness, in declaration order. -/
def valid_cases : List (String × Json) :=
  [("minimal", metadata_template),
   ("custom_key", metadata_template.setField "custom_key" (Json.str "value")),
   ("custom_key_column", setGeometryField "custom_key" (Json.str "value") metadata_template),
   ("geometry_columns_multiple",
    Json.obj
      [("version", Json.str "0.5.0-dev"),
       ("primary_column", Json.str "geometry"),
       ("columns", Json.obj
         [("geometry", template_geometry_column),
          ("other_geom", template_geometry_column)])]),
   ("geometry_column_name",
    Json.obj
      [("version", Json.str "0.5.0-dev"),
       ("primary_column", Json.str "geom"),
       ("columns", Json.obj [("geom", template_geometry_column)])]),
   ("geometry_type_list",
    setGeometryField "geometry_types" (Json.arr [Json.str "Point"]) metadata_template),
   ("crs_null", setGeometryField "crs" Json.null metadata_template),
   ("bbox_4_element",
    setGeometryField "bbox" (Json.arr [Json.num 0, Json.num 0, Json.num 0, Json.num 0])
      metadata_template),
   ("bbox_6_element",
    setGeometryField "bbox"
      (Json.arr [Json.num 0, Json.num 0, Json.num 0, Json.num 0, Json.num 0, Json.num 0])
      metadata_template),
   ("orientation", setGeometryField "orientation" (Json.str "counterclockwise") metadata_template),
   ("edges_planar", setGeometryField "edges" (Json.str "planar") metadata_template),
   ("edges_spherical", setGeometryField "edges" (Json.str "spherical") metadata_template),
   ("epoch", setGeometryField "epoch" (Json.num (20151 / 10)) metadata_template)]

/-- `invalid_cases` of the conformance harness, in declaration order. -/
def invalid_cases : List (String × Json) :=
  [("missing_version", metadata_template.popField "version"),
   ("missing_primary_column", metadata_template.popField "primary_column"),
   ("missing_columns", metadata_template.popField "columns"),
   ("missing_columns_entry", metadata_template.setField "columns" (Json.obj [])),
   ("missing_geometry_encoding", popGeometryField "encoding" metadata_template),
   ("missing_geometry_type", popGeometryField "geometry_types" metadata_template),
   ("geometry_columns_invalid_object",
    Json.obj
      [("version", Json.str "0.5.0-dev"),
       ("primary_column", Json.str "geometry"),
       ("columns", Json.obj
         [("geometry", template_geometry_column),
          ("invalid_column_object", Json.str "foo")])]),
   ("geometry_column_name_primary_empty",
    metadata_template.setField "primary_column" (Json.str "")),
   ("geometry_column_name_empty",
    Json.obj
      [("version", Json.str "0.5.0-dev"),
       ("primary_column", Json.str "geometry"),
       ("columns", Json.obj
         [("geometry", template_geometry_column),
          ("", template_geometry_column)])]),
   ("encoding", setGeometryField "encoding" (Json.str "WKT") metadata_template),
   ("geometry_type_string",
    setGeometryField "geometry_types" (Json.str "Point") metadata_template),
   ("geometry_type_nonexistent",
    setGeometryField "geometry_types" (Json.arr [Json.str "Curve"]) metadata_template),
   ("geometry_type_uniqueness",
    setGeometryField "geometry_types" (Json.arr [Json.str "Point", Json.str "Point"])
      metadata_template),
   ("geometry_type_z_missing_space",
    setGeometryField "geometry_types" (Json.arr [Json.str "PointZ"]) metadata_template),
   ("crs_string", setGeometryField "crs" (Json.str "EPSG:4326") metadata_template),
   ("bbox_3_element",
    setGeometryField "bbox" (Json.arr [Json.num 0, Json.num 0, Json.num 0]) metadata_template),
   ("bbox_5_element",
    setGeometryField "bbox"
      (Json.arr [Json.num 0, Json.num 0, Json.num 0, Json.num 0, Json.num 0]) metadata_template),
   ("bbox_7_element",
    setGeometryField "bbox"
      (Json.arr [Json.num 0, Json.num 0, Json.num 0, Json.num 0, Json.num 0, Json.num 0,
                 Json.num 0]) metadata_template),
   ("bbox_invalid_type",
    setGeometryField "bbox"
      (Json.arr [Json.str "0", Json.str "0", Json.str "0", Json.str "0"]) metadata_template),
   ("orientation", setGeometryField "orientation" (Json.str "clockwise") metadata_template),
   ("edges", setGeometryField "edges" (Json.str "ellipsoid") metadata_template),
   ("epoch_string", setGeometryField "epoch" (Json.str "2015.1") metadata_template)]

/-- Record of one fixture-export call: the file name and the value handed
to the serializer together with the serializer options used by the
harness (`indent=2`, `sort_keys=True`; the serializer itself is the
language's standard JSON library, outside this repository). -/
structure ExportedFile where
  fileName : String
  content : Json
  indent : Nat
  sortKeys : Bool

/-- `write_metadata_json` of the harness: writes `metadata_<name>.json`
holding the fragment wrapped under a `geo` key, pretty-printed with
two-space indent and sorted keys. -/
def write_metadata_json (metadata : Json) (name : String) : ExportedFile :=
  ⟨"metadata_" ++ name ++ ".json", Json.obj [("geo", metadata)], 2, true⟩

/-- The fixture-export loop: one file per catalog entry, valid cases
first (tag prepended to the case name), then invalid cases. -/
def exportAll : List ExportedFile :=
  valid_cases.map (fun c => write_metadata_json c.2 ("valid_" ++ c.1)) ++
  invalid_cases.map (fun c => write_metadata_json c.2 ("invalid_" ++ c.1))

/-- The `geo` metadata embedded by `examples/example.py`.  The CRS text
and the rounded bounds are runtime values, so they are parameters; the
key shapes are literal: note the singular `geometry_type` key and the
string-valued `crs`. -/
def example_metadata (crsWkt : String) (b1 b2 b3 b4 : Rat) : Json :=
  Json.obj
    [("version", Json.str "0.2.0"),
     ("primary_column", Json.str "geometry"),
     ("columns", Json.obj
       [("geometry", Json.obj
         [("encoding", Json.str "WKB"),
          ("geometry_type", Json.arr [Json.str "Polygon", Json.str "MultiPolygon"]),
          ("crs", Json.str crsWkt),
          ("edges", Json.str "planar"),
          ("orientation", Json.str "counterclockwise"),
          ("bbox", Json.arr [Json.num b1, Json.num b2, Json.num b3, Json.num b4])])])]

/-- A template-shaped document whose geometry column carries the given
bbox value. -/
def docWithBbox (xs : List Json) : Json :=
  setGeometryField "bbox" (Json.arr xs) metadata_template

section Lemmas

/-- Appending a field with a different key does not change a lookup. -/
theorem lookupKey_append (key : String) (fields : List (String × Json)) (k : String) (v : Json)
    (h : (k == key) = false) :
    lookupKey key (fields ++ [(k, v)]) = lookupKey key fields := by
  induction fields with
  | nil => simp [lookupKey, h]
  | cons p t ih =>
      cases p with
      | mk pk pv =>
          by_cases hp : (pk == key) = true
          · simp [lookupKey, hp]
          · simp only [Bool.not_eq_true] at hp
            simp [lookupKey, hp, ih]

/-- After removing a key, looking it up yields nothing. -/
theorem lookupKey_removeKey (key : String) (fields : List (String × Json)) :
    lookupKey key (removeKey key fields) = none := by
  induction fields with
  | nil => rfl
  | cons p t ih =>
      cases p with
      | mk pk pv =>
          by_cases hp : (pk == key) = true
          · have hf : ((pk, pv).1 != key) = false := by simp [bne, hp]
            simpa [removeKey, List.filter_cons, hf] using ih
          · simp only [Bool.not_eq_true] at hp
            have hf : ((pk, pv).1 != key) = true := by simp [bne, hp]
            simpa [removeKey, List.filter_cons, hf, lookupKey, hp] using ih

/-- If some element is non-numeric, the first-non-numeric scan finds an
index. -/
theorem firstNonNumIdx_isSome (xs : List Json) (n : Nat)
    (h : xs.any (fun e => !e.isNum) = true) :
    ∃ i, firstNonNumIdx n xs = some i := by
  induction xs generalizing n with
  | nil => simp at h
  | cons e t ih =>
      by_cases he : e.isNum = true
      · simp only [List.any_cons, he, Bool.not_true, Bool.false_or] at h
        have step : firstNonNumIdx n (e :: t) = firstNonNumIdx (n + 1) t := by
          simp [firstNonNumIdx, he]
        rw [step]
        exact ih (n + 1) h
      · simp only [Bool.not_eq_true] at he
        exact ⟨n, by simp [firstNonNumIdx, he]⟩

end Lemmas

/-- C1: every fixture tagged VALID in the conformance catalog validates
with zero violations, every fixture tagged INVALID validates with at
least one violation, and in particular the minimal document validates
with zero violations. -/
theorem claim_C1 :
    (valid_cases.all (fun c => (validate c.2).isEmpty)) = true ∧
    (invalid_cases.all (fun c => !(validate c.2).isEmpty)) = true ∧
    validate metadata_template = [] := by
  refine ⟨by decide, by decide, by decide⟩

/-- C2: validation is a total function of the document: it is defined for
every document-model tree and returns a list of Violations; a non-object
root yields exactly one top-level Violation rather than a fault, and a
document missing every required field still returns Violations (three of
them) instead of failing. -/
theorem claim_C2 :
    (∀ d : Json, d.isObj = false → (validate d).length = 1) ∧
    (validate (Json.obj [])).length = 3 := by
  constructor
  · intro d h
    cases d <;> simp_all [validate, Json.isObj]
  · decide

/-- C2 witness: at the concrete non-object root `null`, validation
returns exactly one violation. -/
theorem claim_C2_witness :
    (validate Json.null).length = 1 :=
  claim_C2.1 Json.null rfl

/-- C3: validation is a deterministic pure function of the document — two
invocations on the same immutable document yield the same ordered list —
and the order is document-level violations first, then the column entries
of the columns map in map iteration order. -/
theorem claim_C3 :
    (∀ d : Json, validate d = validate d) ∧
    (∀ (fields : List (String × Json)) (cols : List (String × Json)),
      lookupKey "columns" fields = some (Json.obj cols) →
      validate (Json.obj fields) =
        (checkRequiredString "version" fields ++ checkPrimaryColumn fields ++
         (if cols.isEmpty then [⟨"columns", VKind.cardinality, "must be non-empty"⟩]
          else [])) ++
        cols.flatMap (fun p => columnEntryCheck p.1 p.2)) := by
  constructor
  · intro d
    rfl
  · intro fields cols h
    simp [validate, checkColumnsBlock, h, List.append_assoc]

/-- C3 witness: the decomposition instantiated at the minimal document. -/
theorem claim_C3_witness :
    validate (Json.obj metadata_template_fields) =
      (checkRequiredString "version" metadata_template_fields ++
       checkPrimaryColumn metadata_template_fields ++
       (if ([("geometry", template_geometry_column)] : List (String × Json)).isEmpty then
          [⟨"columns", VKind.cardinality, "must be non-empty"⟩]
        else [])) ++
      ([("geometry", template_geometry_column)] : List (String × Json)).flatMap
        (fun p => columnEntryCheck p.1 p.2) :=
  claim_C3.2 metadata_template_fields [("geometry", template_geometry_column)] rfl

/-- C4: the fixture whose geometry column has duplicated geometry type
list Point, Point yields exactly one violation, a CardinalityViolation
citing the first duplicate occurrence at index 1. -/
theorem claim_C4 :
    validate (setGeometryField "geometry_types"
        (Json.arr [Json.str "Point", Json.str "Point"]) metadata_template) =
      [⟨"columns.geometry.geometry_types[1]", VKind.cardinality,
        "duplicate geometry type"⟩] := by
  decide

/-- C5: a bbox array whose length is outside the set of 4 and 6 and whose
elements include a non-numeric one produces two separate violations — a
CardinalityViolation for the wrong length and a TypeViolation for the
wrong element type — rather than a single conflated violation: the length
check is evaluated independently of element type-correctness. -/
theorem claim_C5 (xs : List Json)
    (h4 : xs.length ≠ 4) (h6 : xs.length ≠ 6)
    (hbad : xs.any (fun e => !e.isNum) = true) :
    (validate (docWithBbox xs)).map Violation.kind =
      [VKind.cardinality, VKind.typeV] := by
  obtain ⟨i, hi⟩ := firstNonNumIdx_isSome xs 0 hbad
  have hlen : ¬ (xs.length = 4 ∨ xs.length = 6) := fun h => h.elim h4 h6
  simp [docWithBbox, validate, metadata_template, metadata_template_fields,
        template_geometry_column, setGeometryField, setKey, lookupKey,
        checkRequiredString, checkPrimaryColumn, checkColumnsBlock, columnEntryCheck,
        checkColumn, checkEncoding, checkGeometryTypes, geometryTypeElemChecks,
        firstDupIdx, checkCrs, checkBbox, checkOrientation, checkEdges, checkEpoch,
        hlen, hi]

/-- C5 witness: the wrong-length all-string bbox of length 3 yields
exactly the length violation followed by the element-type violation. -/
theorem claim_C5_witness :
    (validate (docWithBbox [Json.str "0", Json.str "0", Json.str "0"])).map Violation.kind =
      [VKind.cardinality, VKind.typeV] :=
  claim_C5 [Json.str "0", Json.str "0", Json.str "0"] (by decide) (by decide) (by decide)

/-- C6: enumeration membership is decided by case-sensitive exact string
equality against the fixed vocabulary with no normalization, for every
enumerated field: a geometry-type element check on a string passes
exactly when the string is in the vocabulary, the encoding check passes
exactly on WKB, the orientation check exactly on counterclockwise, and
the edges check exactly on planar or spherical; the spaced form of the
3-D names is in the vocabulary while the unspaced form and Curve are
not, and validating the corresponding fixtures yields an EnumViolation
for the latter two and zero violations for the former. -/
theorem claim_C6 :
    (∀ p : String, ∀ i : Nat, ∀ s : String,
      (geometryTypeElemCheck p i (Json.str s)).isEmpty = geometryTypeVocabulary.contains s) ∧
    (∀ p : String, ∀ s : String,
      (checkEncoding p [("encoding", Json.str s)]).isEmpty = (s == "WKB")) ∧
    (∀ p : String, ∀ s : String,
      (checkOrientation p [("orientation", Json.str s)]).isEmpty =
        (s == "counterclockwise")) ∧
    (∀ p : String, ∀ s : String,
      (checkEdges p [("edges", Json.str s)]).isEmpty =
        (s == "planar" || s == "spherical")) ∧
    (geometryTypeVocabulary.contains "Point Z") = true ∧
    (geometryTypeVocabulary.contains "PointZ") = false ∧
    (geometryTypeVocabulary.contains "Curve") = false ∧
    (validate (setGeometryField "geometry_types" (Json.arr [Json.str "PointZ"])
        metadata_template)).map Violation.kind = [VKind.enumV] ∧
    (validate (setGeometryField "geometry_types" (Json.arr [Json.str "Curve"])
        metadata_template)).map Violation.kind = [VKind.enumV] ∧
    validate (setGeometryField "geometry_types" (Json.arr [Json.str "Point Z"])
        metadata_template) = [] := by
  refine ⟨?_, ?_, ?_, ?_, by decide, by decide, by decide, by decide, by decide, by decide⟩
  · intro p i s
    by_cases h : geometryTypeVocabulary.contains s = true
    · have hmem : s ∈ geometryTypeVocabulary := by simpa using h
      simp [geometryTypeElemCheck, hmem]
    · simp only [Bool.not_eq_true] at h
      have hmem : ¬ s ∈ geometryTypeVocabulary := by simpa using h
      simp [geometryTypeElemCheck, hmem]
  · intro p s
    by_cases h : (s == "WKB") = true
    · simp [checkEncoding, lookupKey, h]
    · simp only [Bool.not_eq_true] at h
      simp [checkEncoding, lookupKey, h]
  · intro p s
    by_cases h : (s == "counterclockwise") = true
    · simp [checkOrientation, lookupKey, h]
    · simp only [Bool.not_eq_true] at h
      simp [checkOrientation, lookupKey, h]
  · intro p s
    by_cases h : (s == "planar" || s == "spherical") = true
    · simp [checkEdges, lookupKey, h]
    · simp only [Bool.not_eq_true] at h
      simp [checkEdges, lookupKey, h]

/-- C6 witness: the element check instantiated at a concrete path, index
and string. -/
theorem claim_C6_witness :
    (geometryTypeElemCheck "columns.geometry.geometry_types" 0 (Json.str "Point")).isEmpty =
      geometryTypeVocabulary.contains "Point" :=
  claim_C6.1 "columns.geometry.geometry_types" 0 "Point"

/-- C7: the schema is open/additive — appending an unrecognized key to
the document's field list, or to a ColumnSpec's field list, never changes
the validation outcome, so a valid document remains valid after adding
such a key. -/
theorem claim_C7 :
    (∀ (fields : List (String × Json)) (k : String) (v : Json),
      (k == "version") = false → (k == "primary_column") = false →
      (k == "columns") = false →
      validate (Json.obj (fields ++ [(k, v)])) = validate (Json.obj fields)) ∧
    (∀ (path : String) (cfields : List (String × Json)) (k : String) (v : Json),
      (k == "encoding") = false → (k == "geometry_types") = false →
      (k == "crs") = false → (k == "bbox") = false → (k == "orientation") = false →
      (k == "edges") = false → (k == "epoch") = false →
      checkColumn path (cfields ++ [(k, v)]) = checkColumn path cfields) := by
  constructor
  · intro fields k v h1 h2 h3
    simp only [validate, checkRequiredString, checkPrimaryColumn, checkColumnsBlock,
      lookupKey_append _ _ _ _ h1, lookupKey_append _ _ _ _ h2,
      lookupKey_append _ _ _ _ h3]
  · intro path cfields k v h1 h2 h3 h4 h5 h6 h7
    simp only [checkColumn, checkEncoding, checkGeometryTypes, checkCrs, checkBbox,
      checkOrientation, checkEdges, checkEpoch,
      lookupKey_append _ _ _ _ h1, lookupKey_append _ _ _ _ h2,
      lookupKey_append _ _ _ _ h3, lookupKey_append _ _ _ _ h4,
      lookupKey_append _ _ _ _ h5, lookupKey_append _ _ _ _ h6,
      lookupKey_append _ _ _ _ h7]

/-- C7 witness: appending a custom key to the minimal document leaves the
validation result unchanged. -/
theorem claim_C7_witness :
    validate (Json.obj (metadata_template_fields ++ [("custom_key", Json.str "value")])) =
      validate (Json.obj metadata_template_fields) :=
  claim_C7.1 metadata_template_fields "custom_key" (Json.str "value")
    (by decide) (by decide) (by decide)

/-- C8: removing a required key — version, primary_column or columns at
the document level, encoding or geometry_types inside a ColumnSpec — from
a valid document always introduces at least one violation whose path
identifies the removed key. -/
theorem claim_C8 :
    (∀ (fields : List (String × Json)) (key : String),
      key ∈ (["version", "primary_column", "columns"] : List String) →
      validate (Json.obj fields) = [] →
      ∃ v ∈ validate (Json.obj (removeKey key fields)), v.path = key) ∧
    (∀ (path : String) (cfields : List (String × Json)) (key : String),
      key ∈ (["encoding", "geometry_types"] : List String) →
      checkColumn path cfields = [] →
      ∃ v ∈ checkColumn path (removeKey key cfields), v.path = path ++ "." ++ key) := by
  constructor
  · intro fields key hkey _
    simp only [List.mem_cons, List.mem_singleton] at hkey
    rcases hkey with rfl | rfl | rfl | h
    · refine ⟨⟨"version", VKind.structural, "missing required key"⟩, ?_, rfl⟩
      have hnone := lookupKey_removeKey "version" fields
      simp [validate, checkRequiredString, hnone]
    · refine ⟨⟨"primary_column", VKind.structural, "missing required key"⟩, ?_, rfl⟩
      have hnone := lookupKey_removeKey "primary_column" fields
      simp [validate, checkPrimaryColumn, hnone]
    · refine ⟨⟨"columns", VKind.structural, "missing required key"⟩, ?_, rfl⟩
      have hnone := lookupKey_removeKey "columns" fields
      simp [validate, checkColumnsBlock, hnone]
    · cases h
  · intro path cfields key hkey _
    simp only [List.mem_cons, List.mem_singleton] at hkey
    rcases hkey with rfl | rfl | h
    · refine ⟨⟨path ++ ".encoding", VKind.structural, "missing required key"⟩, ?_, ?_⟩
      · have hnone := lookupKey_removeKey "encoding" cfields
        simp [checkColumn, checkEncoding, hnone]
      · show path ++ ".encoding" = path ++ "." ++ "encoding"
        have hs : (".encoding" : String) = "." ++ "encoding" := by decide
        rw [hs, String.append_assoc]
    · refine ⟨⟨path ++ ".geometry_types", VKind.structural, "missing required key"⟩, ?_, ?_⟩
      · have hnone := lookupKey_removeKey "geometry_types" cfields
        simp [checkColumn, checkGeometryTypes, hnone]
      · show path ++ ".geometry_types" = path ++ "." ++ "geometry_types"
        have hs : (".geometry_types" : String) = "." ++ "geometry_types" := by decide
        rw [hs, String.append_assoc]
    · cases h

/-- C8 witness: dropping version from the (valid) minimal document yields
a violation whose path is version. -/
theorem claim_C8_witness :
    ∃ v ∈ validate (Json.obj (removeKey "version" metadata_template_fields)),
      v.path = "version" :=
  claim_C8.1 metadata_template_fields "version" (by decide) (by decide)

/-- C9 counterexample: the file exported for the minimal valid fixture is
not named valid_minimal.json — no exported file bears that name; the
harness prepends a metadata_ prefix, producing metadata_valid_minimal.json. -/
theorem claim_C9_counterexample :
    ((exportAll.map (fun f => f.fileName)).contains "valid_minimal.json") = false ∧
    ((exportAll.map (fun f => f.fileName)).contains "metadata_valid_minimal.json") = true ∧
    (write_metadata_json metadata_template ("valid_" ++ "minimal")).fileName =
      "metadata_valid_minimal.json" := by
  refine ⟨by decide, by decide, by decide⟩

/-- C9 (amended): the fixture export writes exactly one file per catalog
entry, named metadata_<valid|invalid>_<case-name>.json, whose content is
the fragment wrapped under a geo key and serialized pretty-printed with
two-space indent and sorted keys. -/
theorem claim_C9 :
    exportAll.length = valid_cases.length + invalid_cases.length ∧
    exportAll.map (fun f => f.fileName) =
      valid_cases.map (fun c => "metadata_valid_" ++ c.1 ++ ".json") ++
      invalid_cases.map (fun c => "metadata_invalid_" ++ c.1 ++ ".json") ∧
    exportAll.map (fun f => f.content) =
      (valid_cases ++ invalid_cases).map (fun c => Json.obj [("geo", c.2)]) ∧
    exportAll.all (fun f => f.indent == 2 && f.sortKeys) = true := by
  refine ⟨by decide, by decide, rfl, by decide⟩

/-- C10: the metadata embedded by the example generator uses the singular
key geometry_type (so the required geometry_types key is absent) and a
string-valued crs; for every CRS text and every rounded bounds values,
validating it yields violations — one structural violation at
columns.geometry.geometry_types and one type violation at
columns.geometry.crs — so the shipped example metadata is not valid under
the rule set the conformance harness enforces. -/
theorem claim_C10 (crsWkt : String) (b1 b2 b3 b4 : Rat) :
    0 < (validate (example_metadata crsWkt b1 b2 b3 b4)).length ∧
    (validate (example_metadata crsWkt b1 b2 b3 b4)).map (fun v => (v.path, v.kind)) =
      [("columns.geometry.geometry_types", VKind.structural),
       ("columns.geometry.crs", VKind.typeV)] := by
  refine ⟨?_, rfl⟩
  show 0 < 2
  decide

/-- C10 witness: the example metadata instantiated at a concrete CRS text
and concrete rounded bounds still validates with violations at
geometry_types and crs. -/
theorem claim_C10_witness :
    0 < (validate (example_metadata "GEOGCRS" 0 0 0 0)).length ∧
    (validate (example_metadata "GEOGCRS" 0 0 0 0)).map (fun v => (v.path, v.kind)) =
      [("columns.geometry.geometry_types", VKind.structural),
       ("columns.geometry.crs", VKind.typeV)] :=
  claim_C10 "GEOGCRS" 0 0 0 0

end CdwGeo
